import Mathlib

set_option autoImplicit false

/-!
Shallow embedding of the LLM gateway in src/utils/call_llm.py.

The two entry points call_llm and call_llm_with_history are modelled as
pure functions over an explicit environment (the two API-key variables)
and a network oracle (one function per vendor client, returning either
the extracted completion text or a fault message).  Each run yields an
Outcome recording the returned value or propagated error, the list of
network calls made (with the exact request each carried), and the log
lines emitted.
-/

/-- A chat message: a role tag and a content string, mirroring the Python
dicts with keys "role" and "content". -/
structure Msg where
  role : String
  content : String
  deriving DecidableEq, Repr

/-- Python str.lower(), character by character (the provider names the
program compares against are ASCII). -/
def pyLower (s : String) : String :=
  ⟨s.data.map Char.toLower⟩

/-- Python truthiness of an os.getenv result: None and the empty string
are falsy, every other string is truthy. -/
def pyTruthy : Option String → Bool
  | none => false
  | some s => s != ""

/-- Python `x or d` on an optional string x: None and "" fall back to d. -/
def pyOrStr (x : Option String) (d : String) : String :=
  match x with
  | none => d
  | some s => if s = "" then d else s

/-- Python `x or d` on an optional integer x: None and 0 fall back to d. -/
def pyOrInt (x : Option Int) (d : Int) : Int :=
  match x with
  | none => d
  | some n => if n = 0 then d else n

/-- The request handed to client.chat.completions.create: a `none`
max_tokens means the field is omitted (provider-side default). -/
structure OpenAIRequest where
  model : String
  messages : List Msg
  temperature : Float
  max_tokens : Option Int

/-- The request handed to client.messages.create; here max_tokens is
always a concrete integer. -/
structure AnthropicRequest where
  model : String
  messages : List Msg
  temperature : Float
  max_tokens : Int

/-- One network call made during a run, with the request it carried. -/
inductive NetEvent where
  | openaiCall (req : OpenAIRequest)
  | anthropicCall (req : AnthropicRequest)

/-- The network oracle: each vendor client call either returns the
extracted completion text or raises a fault carrying a message. -/
structure Net where
  openai : OpenAIRequest → Except String String
  anthropic : AnthropicRequest → Except String String

/-- The process environment read by os.getenv. -/
structure Env where
  openai_api_key : Option String
  anthropic_api_key : Option String

/-- A propagated Python exception: either a ValueError raised by the
gateway itself or a fault raised by the underlying client. -/
inductive Err where
  | valueError (msg : String)
  | fault (msg : String)
  deriving DecidableEq, Repr

/-- The message string str(e) of a propagated exception. -/
def Err.message : Err → String
  | .valueError m => m
  | .fault m => m

/-- Observable outcome of a call_llm run. -/
structure Outcome where
  result : Except Err String
  netCalls : List NetEvent
  logs : List String

/-- Observable outcome of a call_llm_with_history run.  The Python
function can fall through its if/elif chain and return None, modelled as
`Except.ok none`. -/
structure HOutcome where
  result : Except Err (Option String)
  netCalls : List NetEvent
  logs : List String

/-- Request built by call_llm for the OpenAI branch (lines 44-51):
`model or "gpt-4o"`, a single user message holding the prompt, and
max_tokens passed through unchanged. -/
def openaiSingleReq (prompt : String) (model : Option String)
    (temperature : Float) (max_tokens : Option Int) : OpenAIRequest :=
  { model := pyOrStr model "gpt-4o",
    messages := [{ role := "user", content := prompt }],
    temperature := temperature,
    max_tokens := max_tokens }

/-- Request built by call_llm for the Anthropic branch (lines 60-67):
`model or "claude-3-opus-20240229"`, a single user message, and
`max_tokens or 4096`. -/
def anthropicSingleReq (prompt : String) (model : Option String)
    (temperature : Float) (max_tokens : Option Int) : AnthropicRequest :=
  { model := pyOrStr model "claude-3-opus-20240229",
    messages := [{ role := "user", content := prompt }],
    temperature := temperature,
    max_tokens := pyOrInt max_tokens 4096 }

/-- Shallow embedding of call_llm (src/utils/call_llm.py lines 15-78). -/
def call_llm (net : Net) (env : Env) (prompt : String)
    (provider : String := "openai") (model : Option String := none)
    (temperature : Float := 0.7) (max_tokens : Option Int := none) :
    Outcome :=
  let infoLog := "Calling " ++ provider ++ " LLM with prompt length: "
      ++ toString prompt.length
  let attempt : Except Err String × List NetEvent :=
    if pyLower provider = "openai" then
      if pyTruthy env.openai_api_key = false
          ∨ env.openai_api_key = some "YOUR_API_KEY_HERE" then
        (Except.error
          (Err.valueError "OPENAI_API_KEY not found in environment variables"), [])
      else
        let req := openaiSingleReq prompt model temperature max_tokens
        match net.openai req with
        | Except.ok text => (Except.ok text, [NetEvent.openaiCall req])
        | Except.error msg => (Except.error (Err.fault msg), [NetEvent.openaiCall req])
    else if pyLower provider = "anthropic" then
      if pyTruthy env.anthropic_api_key = false then
        (Except.error
          (Err.valueError "ANTHROPIC_API_KEY not found in environment variables"), [])
      else
        let req := anthropicSingleReq prompt model temperature max_tokens
        match net.anthropic req with
        | Except.ok text => (Except.ok text, [NetEvent.anthropicCall req])
        | Except.error msg => (Except.error (Err.fault msg), [NetEvent.anthropicCall req])
    else
      (Except.error (Err.valueError ("Unsupported provider: " ++ provider)), [])
  match attempt with
  | (Except.ok text, calls) =>
      { result := Except.ok text,
        netCalls := calls,
        logs := [infoLog, "Received response of length: " ++ toString text.length] }
  | (Except.error e, calls) =>
      { result := Except.error e,
        netCalls := calls,
        logs := [infoLog, "Error calling " ++ provider ++ " LLM: " ++ e.message] }

/-- The Anthropic message translation loop of call_llm_with_history
(src/utils/call_llm.py lines 137-144), threading the accumulator
anthropic_messages: a system message has its content prepended (with a
"\n\n" separator) to the first accumulated message when that message has
the user role, and is dropped otherwise; every other message is appended. -/
def anthropicFoldGo : List Msg → List Msg → List Msg
  | [], acc => acc
  | msg :: rest, acc =>
    if msg.role = "system" then
      match acc with
      | [] => anthropicFoldGo rest []
      | first :: others =>
        if first.role = "user" then
          anthropicFoldGo rest
            ({ role := first.role,
               content := msg.content ++ "\n\n" ++ first.content } :: others)
        else
          anthropicFoldGo rest (first :: others)
    else
      anthropicFoldGo rest (acc ++ [msg])

/-- The translated message sequence sent to Anthropic by
call_llm_with_history, starting from the empty accumulator. -/
def anthropicFold (messages : List Msg) : List Msg :=
  anthropicFoldGo messages []

/-- Request built by call_llm_with_history for the OpenAI branch
(lines 118-125): kwargs.get("model", "gpt-4o"), the messages unchanged,
and kwargs.get("max_tokens") passed through. -/
def openaiHistReq (messages : List Msg) (model : Option String)
    (temperature : Float) (max_tokens : Option Int) : OpenAIRequest :=
  { model := model.getD "gpt-4o",
    messages := messages,
    temperature := temperature,
    max_tokens := max_tokens }

/-- Request built by call_llm_with_history for the Anthropic branch
(lines 134-151): kwargs.get("model", "claude-3-opus-20240229"), the
translated messages, and kwargs.get("max_tokens", 4096). -/
def anthropicHistReq (messages : List Msg) (model : Option String)
    (temperature : Float) (max_tokens : Option Int) : AnthropicRequest :=
  { model := model.getD "claude-3-opus-20240229",
    messages := anthropicFold messages,
    temperature := temperature,
    max_tokens := max_tokens.getD 4096 }

/-- Shallow embedding of call_llm_with_history (src/utils/call_llm.py
lines 90-156).  The optional parameters model, temperature, max_tokens
model the **kwargs dictionary; `none` means the key is absent.  The
Python if/elif chain has no final else: an unrecognized provider falls
through and the function returns None, modelled as `Except.ok none`. -/
def call_llm_with_history (net : Net) (env : Env) (messages : List Msg)
    (provider : String := "openai") (model : Option String := none)
    (temperature : Float := 0.7) (max_tokens : Option Int := none) :
    HOutcome :=
  if messages = [] then
    { result := Except.error (Err.valueError "Messages list cannot be empty"),
      netCalls := [], logs := [] }
  else
    let infoLog := "Calling " ++ provider ++ " with "
        ++ toString messages.length ++ " messages"
    let attempt : Except Err (Option String) × List NetEvent :=
      if pyLower provider = "openai" then
        if pyTruthy env.openai_api_key = false then
          (Except.error
            (Err.valueError "OPENAI_API_KEY not found in environment variables"), [])
        else
          let req := openaiHistReq messages model temperature max_tokens
          match net.openai req with
          | Except.ok text => (Except.ok (some text), [NetEvent.openaiCall req])
          | Except.error msg =>
              (Except.error (Err.fault msg), [NetEvent.openaiCall req])
      else if pyLower provider = "anthropic" then
        if pyTruthy env.anthropic_api_key = false then
          (Except.error
            (Err.valueError "ANTHROPIC_API_KEY not found in environment variables"), [])
        else
          let req := anthropicHistReq messages model temperature max_tokens
          match net.anthropic req with
          | Except.ok text => (Except.ok (some text), [NetEvent.anthropicCall req])
          | Except.error msg =>
              (Except.error (Err.fault msg), [NetEvent.anthropicCall req])
      else
        (Except.ok none, [])
    match attempt with
    | (Except.ok t, calls) =>
        { result := Except.ok t, netCalls := calls, logs := [infoLog] }
    | (Except.error e, calls) =>
        { result := Except.error e,
          netCalls := calls,
          logs := [infoLog,
            "Error calling " ++ provider ++ " with history: " ++ e.message] }

/-- The model identifiers carried by the network calls of a run. -/
def sentModels (calls : List NetEvent) : List String :=
  calls.map fun e =>
    match e with
    | NetEvent.openaiCall r => r.model
    | NetEvent.anthropicCall r => r.model

/-- The max_tokens values carried by the network calls of a run
(`none` when the OpenAI request omits the field). -/
def sentMaxTokens (calls : List NetEvent) : List (Option Int) :=
  calls.map fun e =>
    match e with
    | NetEvent.openaiCall r => r.max_tokens
    | NetEvent.anthropicCall r => some r.max_tokens

/-- The message sequences carried by the network calls of a run. -/
def sentMessages (calls : List NetEvent) : List (List Msg) :=
  calls.map fun e =>
    match e with
    | NetEvent.openaiCall r => r.messages
    | NetEvent.anthropicCall r => r.messages

/-- The contents of the system-role messages of a sequence, in order. -/
def sysContents (l : List Msg) : List String :=
  (l.filter fun m => m.role == "system").map Msg.content

/-- The non-system messages of a sequence, in order. -/
def nonSystem (l : List Msg) : List Msg :=
  l.filter fun m => m.role != "system"

/-- Joining a list of strings with the "\n\n" separator used by the fold. -/
def joinSep : List String → String
  | [] => ""
  | [c] => c
  | a :: b :: rest => a ++ "\n\n" ++ joinSep (b :: rest)

/-- Substring test, used to state that a propagated error message does
not mention the provider name. -/
def strContainsSub (s pat : String) : Bool :=
  (List.range (s.length + 1)).any fun i =>
    pat.toList.isPrefixOf (s.toList.drop i)

/-- A network oracle whose two backends always answer "T". -/
def netOkT : Net :=
  { openai := fun _ => Except.ok "T", anthropic := fun _ => Except.ok "T" }

/-- A network oracle whose two backends always raise the fault "boom". -/
def netBoom : Net :=
  { openai := fun _ => Except.error "boom",
    anthropic := fun _ => Except.error "boom" }

/-- An environment holding an ordinary key for each provider. -/
def envBoth : Env :=
  { openai_api_key := some "sk-test", anthropic_api_key := some "ak-test" }

/-- An environment whose OpenAI key is the sentinel placeholder value. -/
def envPlaceholder : Env :=
  { openai_api_key := some "YOUR_API_KEY_HERE",
    anthropic_api_key := some "ak-test" }

/-- An environment with neither key set. -/
def envNone : Env :=
  { openai_api_key := none, anthropic_api_key := none }

/-! ## Branch characterizations of the two entry points -/

/-- With a truthy, non-placeholder OpenAI key, call_llm with provider
"openai" makes exactly one client call carrying the constructed request
and either returns the completion text or re-raises the client fault. -/
theorem call_llm_openai_spec (net : Net) (env : Env) (prompt : String)
    (model : Option String) (t : Float) (mt : Option Int)
    (h1 : pyTruthy env.openai_api_key = true)
    (h2 : env.openai_api_key ≠ some "YOUR_API_KEY_HERE") :
    call_llm net env prompt "openai" model t mt =
      match net.openai (openaiSingleReq prompt model t mt) with
      | Except.ok text =>
          { result := Except.ok text,
            netCalls := [NetEvent.openaiCall (openaiSingleReq prompt model t mt)],
            logs := ["Calling openai LLM with prompt length: " ++ toString prompt.length,
                     "Received response of length: " ++ toString text.length] }
      | Except.error msg =>
          { result := Except.error (Err.fault msg),
            netCalls := [NetEvent.openaiCall (openaiSingleReq prompt model t mt)],
            logs := ["Calling openai LLM with prompt length: " ++ toString prompt.length,
                     "Error calling openai LLM: " ++ msg] } := by
  have hc : ¬ (pyTruthy env.openai_api_key = false
      ∨ env.openai_api_key = some "YOUR_API_KEY_HERE") := by
    simp [h1, h2]
  simp only [call_llm]
  rw [if_pos (show pyLower "openai" = "openai" from rfl)]
  rw [if_neg hc]
  cases hnet : net.openai (openaiSingleReq prompt model t mt) with
  | ok text => rfl
  | error msg => rfl

/-- With a truthy Anthropic key, call_llm with provider "anthropic"
makes exactly one client call carrying the constructed request and
either returns the completion text or re-raises the client fault. -/
theorem call_llm_anthropic_spec (net : Net) (env : Env) (prompt : String)
    (model : Option String) (t : Float) (mt : Option Int)
    (h1 : pyTruthy env.anthropic_api_key = true) :
    call_llm net env prompt "anthropic" model t mt =
      match net.anthropic (anthropicSingleReq prompt model t mt) with
      | Except.ok text =>
          { result := Except.ok text,
            netCalls := [NetEvent.anthropicCall (anthropicSingleReq prompt model t mt)],
            logs := ["Calling anthropic LLM with prompt length: " ++ toString prompt.length,
                     "Received response of length: " ++ toString text.length] }
      | Except.error msg =>
          { result := Except.error (Err.fault msg),
            netCalls := [NetEvent.anthropicCall (anthropicSingleReq prompt model t mt)],
            logs := ["Calling anthropic LLM with prompt length: " ++ toString prompt.length,
                     "Error calling anthropic LLM: " ++ msg] } := by
  simp only [call_llm]
  rw [if_neg (show ¬ pyLower "anthropic" = "openai" from by decide)]
  rw [if_pos (show pyLower "anthropic" = "anthropic" from rfl)]
  rw [if_neg (show ¬ pyTruthy env.anthropic_api_key = false from by simp [h1])]
  cases hnet : net.anthropic (anthropicSingleReq prompt model t mt) with
  | ok text => rfl
  | error msg => rfl

/-- With a nonempty message list and a truthy OpenAI key (the multi-turn
path never checks the placeholder), call_llm_with_history with provider
"openai" makes exactly one client call carrying the messages unchanged. -/
theorem call_llm_with_history_openai_spec (net : Net) (env : Env)
    (messages : List Msg) (model : Option String) (t : Float) (mt : Option Int)
    (hm : messages ≠ [])
    (h1 : pyTruthy env.openai_api_key = true) :
    call_llm_with_history net env messages "openai" model t mt =
      match net.openai (openaiHistReq messages model t mt) with
      | Except.ok text =>
          { result := Except.ok (some text),
            netCalls := [NetEvent.openaiCall (openaiHistReq messages model t mt)],
            logs := ["Calling openai with " ++ toString messages.length ++ " messages"] }
      | Except.error msg =>
          { result := Except.error (Err.fault msg),
            netCalls := [NetEvent.openaiCall (openaiHistReq messages model t mt)],
            logs := ["Calling openai with " ++ toString messages.length ++ " messages",
                     "Error calling openai with history: " ++ msg] } := by
  simp only [call_llm_with_history]
  rw [if_neg hm]
  rw [if_pos (show pyLower "openai" = "openai" from rfl)]
  rw [if_neg (show ¬ pyTruthy env.openai_api_key = false from by simp [h1])]
  cases hnet : net.openai (openaiHistReq messages model t mt) with
  | ok text => rfl
  | error msg => rfl

/-- With a nonempty message list and a truthy Anthropic key,
call_llm_with_history with provider "anthropic" makes exactly one client
call carrying the translated (folded) messages. -/
theorem call_llm_with_history_anthropic_spec (net : Net) (env : Env)
    (messages : List Msg) (model : Option String) (t : Float) (mt : Option Int)
    (hm : messages ≠ [])
    (h1 : pyTruthy env.anthropic_api_key = true) :
    call_llm_with_history net env messages "anthropic" model t mt =
      match net.anthropic (anthropicHistReq messages model t mt) with
      | Except.ok text =>
          { result := Except.ok (some text),
            netCalls := [NetEvent.anthropicCall (anthropicHistReq messages model t mt)],
            logs := ["Calling anthropic with " ++ toString messages.length ++ " messages"] }
      | Except.error msg =>
          { result := Except.error (Err.fault msg),
            netCalls := [NetEvent.anthropicCall (anthropicHistReq messages model t mt)],
            logs := ["Calling anthropic with " ++ toString messages.length ++ " messages",
                     "Error calling anthropic with history: " ++ msg] } := by
  simp only [call_llm_with_history]
  rw [if_neg hm]
  rw [if_neg (show ¬ pyLower "anthropic" = "openai" from by decide)]
  rw [if_pos (show pyLower "anthropic" = "anthropic" from rfl)]
  rw [if_neg (show ¬ pyTruthy env.anthropic_api_key = false from by simp [h1])]
  cases hnet : net.anthropic (anthropicHistReq messages model t mt) with
  | ok text => rfl
  | error msg => rfl

/-! ## Lemmas on the Anthropic message translation -/

theorem anthropicFoldGo_nil (acc : List Msg) : anthropicFoldGo [] acc = acc := rfl

theorem anthropicFoldGo_sys_nil (msg : Msg) (rest : List Msg)
    (h : msg.role = "system") :
    anthropicFoldGo (msg :: rest) [] = anthropicFoldGo rest [] := by
  simp [anthropicFoldGo, h]

theorem anthropicFoldGo_sys_user (msg first : Msg) (rest others : List Msg)
    (h : msg.role = "system") (hu : first.role = "user") :
    anthropicFoldGo (msg :: rest) (first :: others) =
      anthropicFoldGo rest
        ({ role := first.role,
           content := msg.content ++ "\n\n" ++ first.content } :: others) := by
  simp [anthropicFoldGo, h, hu]

theorem anthropicFoldGo_sys_nonuser (msg first : Msg) (rest others : List Msg)
    (h : msg.role = "system") (hu : ¬ first.role = "user") :
    anthropicFoldGo (msg :: rest) (first :: others) =
      anthropicFoldGo rest (first :: others) := by
  simp [anthropicFoldGo, h, hu]

theorem anthropicFoldGo_nonsys (msg : Msg) (rest acc : List Msg)
    (h : ¬ msg.role = "system") :
    anthropicFoldGo (msg :: rest) acc = anthropicFoldGo rest (acc ++ [msg]) := by
  simp [anthropicFoldGo, h]

/-- Processing a concatenation threads the accumulator through. -/
theorem anthropicFoldGo_append (xs ys acc : List Msg) :
    anthropicFoldGo (xs ++ ys) acc = anthropicFoldGo ys (anthropicFoldGo xs acc) := by
  induction xs generalizing acc with
  | nil => rfl
  | cons msg rest ih =>
    by_cases h : msg.role = "system"
    · cases acc with
      | nil =>
        rw [List.cons_append, anthropicFoldGo_sys_nil msg (rest ++ ys) h,
          anthropicFoldGo_sys_nil msg rest h, ih]
      | cons first others =>
        by_cases hu : first.role = "user"
        · rw [List.cons_append, anthropicFoldGo_sys_user msg first (rest ++ ys) others h hu,
            anthropicFoldGo_sys_user msg first rest others h hu, ih]
        · rw [List.cons_append, anthropicFoldGo_sys_nonuser msg first (rest ++ ys) others h hu,
            anthropicFoldGo_sys_nonuser msg first rest others h hu, ih]
    · rw [List.cons_append, anthropicFoldGo_nonsys msg (rest ++ ys) acc h,
        anthropicFoldGo_nonsys msg rest acc h, ih]

theorem sysContents_cons_sys (msg : Msg) (l : List Msg) (h : msg.role = "system") :
    sysContents (msg :: l) = msg.content :: sysContents l := by
  simp [sysContents, h]

theorem sysContents_cons_nonsys (msg : Msg) (l : List Msg) (h : ¬ msg.role = "system") :
    sysContents (msg :: l) = sysContents l := by
  simp [sysContents, h]

theorem nonSystem_cons_sys (msg : Msg) (l : List Msg) (h : msg.role = "system") :
    nonSystem (msg :: l) = nonSystem l := by
  simp [nonSystem, h]

theorem nonSystem_cons_nonsys (msg : Msg) (l : List Msg) (h : ¬ msg.role = "system") :
    nonSystem (msg :: l) = msg :: nonSystem l := by
  simp [nonSystem, h]

/-- The roles of the translated sequence: the accumulated roles followed
by the roles of the non-system inputs, in order.  In particular the
translation never emits a system role and never changes a role. -/
theorem anthropicFoldGo_roles (l : List Msg) : ∀ acc : List Msg,
    (anthropicFoldGo l acc).map Msg.role =
      acc.map Msg.role ++ (nonSystem l).map Msg.role := by
  induction l with
  | nil => intro acc; rw [anthropicFoldGo_nil]; simp [nonSystem]
  | cons msg rest ih =>
    intro acc
    by_cases h : msg.role = "system"
    · rw [nonSystem_cons_sys msg rest h]
      cases acc with
      | nil => rw [anthropicFoldGo_sys_nil msg rest h, ih]
      | cons first others =>
        by_cases hu : first.role = "user"
        · rw [anthropicFoldGo_sys_user msg first rest others h hu, ih]; rfl
        · rw [anthropicFoldGo_sys_nonuser msg first rest others h hu, ih]
    · rw [nonSystem_cons_nonsys msg rest h, anthropicFoldGo_nonsys msg rest acc h, ih]
      simp

/-- No message of a translated sequence carries the system role. -/
theorem anthropicFold_no_system (l : List Msg) (m : Msg)
    (hm : m ∈ anthropicFold l) : ¬ m.role = "system" := by
  intro hrole
  have hmem : m.role ∈ (anthropicFold l).map Msg.role := List.mem_map_of_mem Msg.role hm
  rw [anthropicFold, anthropicFoldGo_roles l []] at hmem
  simp only [List.map_nil, List.nil_append, List.mem_map] at hmem
  obtain ⟨m', hm', hrole'⟩ := hmem
  have := List.of_mem_filter hm'
  rw [hrole', hrole] at this
  simp at this

/-- Processing a sequence over an accumulator headed by a user message:
every system content of the sequence is prepended (with the "\n\n"
separator) to that head, and the non-system messages are appended. -/
theorem anthropicFoldGo_user (l : List Msg) : ∀ (c : String) (tl : List Msg),
    anthropicFoldGo l ({ role := "user", content := c } :: tl) =
      { role := "user",
        content := List.foldl (fun acc s => s ++ "\n\n" ++ acc) c (sysContents l) } ::
        (tl ++ nonSystem l) := by
  induction l with
  | nil =>
    intro c tl
    rw [anthropicFoldGo_nil]
    simp [sysContents, nonSystem]
  | cons msg rest ih =>
    intro c tl
    by_cases h : msg.role = "system"
    · simp only [anthropicFoldGo, h, if_true, eq_self_iff_true]
      rw [ih]
      rw [sysContents_cons_sys msg rest h, nonSystem_cons_sys msg rest h]
      simp
    · simp only [anthropicFoldGo, h, if_false, List.cons_append]
      rw [ih]
      rw [sysContents_cons_nonsys msg rest h, nonSystem_cons_nonsys msg rest h]
      simp

theorem joinSep_cons (x : String) (l : List String) (h : l ≠ []) :
    joinSep (x :: l) = x ++ "\n\n" ++ joinSep l := by
  cases l with
  | nil => exact absurd rfl h
  | cons b t => rfl

theorem joinSep_fold_pair (xs : List String) (a c : String) :
    joinSep (xs ++ [a, c]) = joinSep (xs ++ [a ++ "\n\n" ++ c]) := by
  induction xs with
  | nil => rfl
  | cons x xs ih =>
    rw [List.cons_append, List.cons_append,
      joinSep_cons x (xs ++ [a, c]) (by simp),
      joinSep_cons x (xs ++ [a ++ "\n\n" ++ c]) (by simp), ih]

/-- Successive prepending with the "\n\n" separator produces the join of
the pieces in reverse order, with the starting string last. -/
theorem foldl_prepend_joinSep (l : List String) : ∀ c : String,
    List.foldl (fun acc s => s ++ "\n\n" ++ acc) c l =
      joinSep (l.reverse ++ [c]) := by
  induction l with
  | nil => intro c; rfl
  | cons a l ih =>
    intro c
    simp only [List.foldl_cons]
    rw [ih, List.reverse_cons, List.append_assoc, List.singleton_append,
      joinSep_fold_pair]

/-- When the input sequence starts with a user message, the translation
keeps that message first, folds every system content of the tail into it
(prepending with the "\n\n" separator), and appends the remaining
non-system messages in order. -/
theorem anthropicFold_user_head (r c : String) (rest : List Msg) (h : r = "user") :
    anthropicFold (Msg.mk r c :: rest) =
      { role := "user",
        content := List.foldl (fun acc s => s ++ "\n\n" ++ acc) c (sysContents rest) } ::
        nonSystem rest := by
  subst h
  have hns : ¬ (Msg.mk "user" c).role = "system" := by
    rw [show (Msg.mk "user" c).role = "user" from rfl]; decide
  rw [anthropicFold, anthropicFoldGo_nonsys (Msg.mk "user" c) rest [] hns,
    List.nil_append, anthropicFoldGo_user rest c []]
  simp

/-! ## Claim theorems -/

/-- Claim C1 counterexample: the sequence [system "S", user "U"] contains
a system message followed later by a user message, yet the translated
sequence is just [user "U"]: the combined content "S\n\nU" the claim
requires appears nowhere, because the fold only targets a user message
that was already emitted before the system message. -/
theorem C1_counterexample :
    anthropicFold [{ role := "system", content := "S" },
        { role := "user", content := "U" }] =
      [{ role := "user", content := "U" }] ∧
    ¬ "U" = "S" ++ "\n\n" ++ "U" :=
  ⟨rfl, by decide⟩

/-- Claim C1 (amended): for every message sequence whose first message is
a user-role message, each system content of the tail is folded into that
first message (system content, then "\n\n", then the content accumulated
so far), and the translated sequence carries no system-role entries: it
is exactly the folded first message followed by the non-system tail
messages in their original order. -/
theorem C1_fold_amended (u : Msg) (rest : List Msg) (h : u.role = "user") :
    anthropicFold (u :: rest) =
      { role := "user",
        content := List.foldl (fun acc s => s ++ "\n\n" ++ acc) u.content
          (sysContents rest) } :: nonSystem rest ∧
    ∀ m ∈ anthropicFold (u :: rest), ¬ m.role = "system" := by
  obtain ⟨r, c⟩ := u
  exact ⟨anthropicFold_user_head r c rest h,
    fun m hm => anthropicFold_no_system _ m hm⟩

/-- Witness for C1_fold_amended at the sequence
[user "U", system "S", assistant "A"]. -/
theorem C1_fold_amended_witness :
    (Msg.mk "user" "U").role = "user" ∧
    (anthropicFold [Msg.mk "user" "U", Msg.mk "system" "S", Msg.mk "assistant" "A"] =
        { role := "user",
          content := List.foldl (fun acc s => s ++ "\n\n" ++ acc)
            (Msg.mk "user" "U").content
            (sysContents [Msg.mk "system" "S", Msg.mk "assistant" "A"]) } ::
          nonSystem [Msg.mk "system" "S", Msg.mk "assistant" "A"] ∧
      ∀ m ∈ anthropicFold [Msg.mk "user" "U", Msg.mk "system" "S",
          Msg.mk "assistant" "A"], ¬ m.role = "system") :=
  ⟨rfl, C1_fold_amended (Msg.mk "user" "U")
    [Msg.mk "system" "S", Msg.mk "assistant" "A"] rfl⟩

/-- Claim C4: a system message with no user message before it at the
time of folding contributes nothing to the translated sequence - the
translation equals the translation of the input with that system message
deleted - and no system-role entry is emitted at all. -/
theorem C4_system_dropped (pre post : List Msg) (sys : Msg)
    (hs : sys.role = "system") (hpre : ∀ m ∈ pre, ¬ m.role = "user") :
    anthropicFold (pre ++ sys :: post) = anthropicFold (pre ++ post) ∧
    ∀ m ∈ anthropicFold (pre ++ sys :: post), ¬ m.role = "system" := by
  refine ⟨?_, fun m hm => anthropicFold_no_system _ m hm⟩
  have hroles : (anthropicFoldGo pre []).map Msg.role =
      (nonSystem pre).map Msg.role := by
    rw [anthropicFoldGo_roles pre []]; simp
  rw [anthropicFold, anthropicFold, anthropicFoldGo_append, anthropicFoldGo_append]
  cases hacc : anthropicFoldGo pre [] with
  | nil => rw [anthropicFoldGo_sys_nil sys post hs]
  | cons first others =>
    rw [hacc] at hroles
    have hfu : ¬ first.role = "user" := by
      have h1 : first.role ∈ (first :: others).map Msg.role :=
        List.mem_map_of_mem Msg.role (List.mem_cons_self first others)
      rw [hroles] at h1
      obtain ⟨m', hm', he⟩ := List.mem_map.mp h1
      intro hu
      exact hpre m' (List.mem_filter.mp hm').1 (he.trans hu)
    rw [anthropicFoldGo_sys_nonuser sys first post others hs hfu]

/-- Witness for C4_system_dropped: in [assistant "A", system "S",
user "U"] the system content is dropped. -/
theorem C4_system_dropped_witness :
    (Msg.mk "system" "S").role = "system" ∧
    (∀ m ∈ [Msg.mk "assistant" "A"], ¬ m.role = "user") ∧
    (anthropicFold ([Msg.mk "assistant" "A"] ++ Msg.mk "system" "S" :: [Msg.mk "user" "U"]) =
        anthropicFold ([Msg.mk "assistant" "A"] ++ [Msg.mk "user" "U"]) ∧
      ∀ m ∈ anthropicFold ([Msg.mk "assistant" "A"] ++
          Msg.mk "system" "S" :: [Msg.mk "user" "U"]), ¬ m.role = "system") :=
  ⟨rfl, by decide,
    C4_system_dropped [Msg.mk "assistant" "A"] [Msg.mk "user" "U"]
      (Msg.mk "system" "S") rfl (by decide)⟩

/-- Claim C9: when the first input message is a user message, every
later system content is prepended to it in turn, so the first translated
message carries the system contents in reverse order of occurrence (the
last system message first), each separated by "\n\n", ending with the
original user content. -/
theorem C9_system_reverse_order (u : Msg) (rest : List Msg)
    (h : u.role = "user") (h2 : 2 ≤ (sysContents rest).length) :
    (anthropicFold (u :: rest)).head? =
      some { role := "user",
             content := joinSep ((sysContents rest).reverse ++ [u.content]) } := by
  obtain ⟨r, c⟩ := u
  rw [anthropicFold_user_head r c rest h, List.head?_cons,
    foldl_prepend_joinSep]

/-- Witness for C9_system_reverse_order: [user "U", system "S1",
system "S2"] yields first content "S2\n\nS1\n\nU". -/
theorem C9_system_reverse_order_witness :
    (Msg.mk "user" "U").role = "user" ∧
    2 ≤ (sysContents [Msg.mk "system" "S1", Msg.mk "system" "S2"]).length ∧
    (anthropicFold [Msg.mk "user" "U", Msg.mk "system" "S1",
        Msg.mk "system" "S2"]).head? =
      some { role := "user",
             content := joinSep ((sysContents [Msg.mk "system" "S1",
               Msg.mk "system" "S2"]).reverse ++ [(Msg.mk "user" "U").content]) } :=
  ⟨rfl, by decide,
    C9_system_reverse_order (Msg.mk "user" "U")
      [Msg.mk "system" "S1", Msg.mk "system" "S2"] rfl (by decide)⟩

/-- Claim C5: an empty message sequence makes call_llm_with_history fail
with the validation ValueError before anything else happens: for every
environment, provider and network oracle the result is that error, no
network call is made, and not even a log line is emitted. -/
theorem C5_empty_messages (net : Net) (env : Env) (provider : String)
    (model : Option String) (t : Float) (mt : Option Int) :
    (call_llm_with_history net env [] provider model t mt).result =
      Except.error (Err.valueError "Messages list cannot be empty") ∧
    (call_llm_with_history net env [] provider model t mt).netCalls = [] ∧
    (call_llm_with_history net env [] provider model t mt).logs = [] :=
  ⟨rfl, rfl, rfl⟩

/-- call_llm with provider "openai" fails before any network call when
the key is falsy or equals the placeholder sentinel. -/
theorem call_llm_openai_nokey (net : Net) (env : Env) (prompt : String)
    (model : Option String) (t : Float) (mt : Option Int)
    (h : pyTruthy env.openai_api_key = false
      ∨ env.openai_api_key = some "YOUR_API_KEY_HERE") :
    call_llm net env prompt "openai" model t mt =
      { result := Except.error
          (Err.valueError "OPENAI_API_KEY not found in environment variables"),
        netCalls := [],
        logs := ["Calling openai LLM with prompt length: " ++ toString prompt.length,
          "Error calling openai LLM: OPENAI_API_KEY not found in environment variables"] } := by
  simp only [call_llm]
  rw [if_pos (show pyLower "openai" = "openai" from rfl), if_pos h]
  rfl

/-- call_llm with provider "anthropic" fails before any network call
when the key is falsy. -/
theorem call_llm_anthropic_nokey (net : Net) (env : Env) (prompt : String)
    (model : Option String) (t : Float) (mt : Option Int)
    (h : pyTruthy env.anthropic_api_key = false) :
    call_llm net env prompt "anthropic" model t mt =
      { result := Except.error
          (Err.valueError "ANTHROPIC_API_KEY not found in environment variables"),
        netCalls := [],
        logs := ["Calling anthropic LLM with prompt length: " ++ toString prompt.length,
          "Error calling anthropic LLM: ANTHROPIC_API_KEY not found in environment variables"] } := by
  simp only [call_llm]
  rw [if_neg (show ¬ pyLower "anthropic" = "openai" from by decide),
    if_pos (show pyLower "anthropic" = "anthropic" from rfl), if_pos h]
  rfl

/-- call_llm_with_history with provider "openai" fails before any
network call when the key is falsy (the placeholder is not checked). -/
theorem call_llm_with_history_openai_nokey (net : Net) (env : Env)
    (messages : List Msg) (model : Option String) (t : Float) (mt : Option Int)
    (hm : messages ≠ []) (h : pyTruthy env.openai_api_key = false) :
    call_llm_with_history net env messages "openai" model t mt =
      { result := Except.error
          (Err.valueError "OPENAI_API_KEY not found in environment variables"),
        netCalls := [],
        logs := ["Calling openai with " ++ toString messages.length ++ " messages",
          "Error calling openai with history: OPENAI_API_KEY not found in environment variables"] } := by
  simp only [call_llm_with_history]
  rw [if_neg hm, if_pos (show pyLower "openai" = "openai" from rfl), if_pos h]
  rfl

/-- call_llm_with_history with provider "anthropic" fails before any
network call when the key is falsy. -/
theorem call_llm_with_history_anthropic_nokey (net : Net) (env : Env)
    (messages : List Msg) (model : Option String) (t : Float) (mt : Option Int)
    (hm : messages ≠ []) (h : pyTruthy env.anthropic_api_key = false) :
    call_llm_with_history net env messages "anthropic" model t mt =
      { result := Except.error
          (Err.valueError "ANTHROPIC_API_KEY not found in environment variables"),
        netCalls := [],
        logs := ["Calling anthropic with " ++ toString messages.length ++ " messages",
          "Error calling anthropic with history: ANTHROPIC_API_KEY not found in environment variables"] } := by
  simp only [call_llm_with_history]
  rw [if_neg hm, if_neg (show ¬ pyLower "anthropic" = "openai" from by decide),
    if_pos (show pyLower "anthropic" = "anthropic" from rfl), if_pos h]
  rfl

/-- Claim C2 (code evaluation at the failing input): with both keys set,
call_llm with the unknown provider "gemini" raises the configuration
ValueError with no network call, but call_llm_with_history with the same
provider falls through its if/elif chain and returns None - also with no
network call, yet with no error raised either. -/
theorem C2_dispatch_eval :
    (call_llm netOkT envBoth "hi" "gemini").result =
      Except.error (Err.valueError "Unsupported provider: gemini") ∧
    (call_llm netOkT envBoth "hi" "gemini").netCalls = [] ∧
    (call_llm_with_history netOkT envBoth [{ role := "user", content := "hi" }]
        "gemini").result = Except.ok none ∧
    (call_llm_with_history netOkT envBoth [{ role := "user", content := "hi" }]
        "gemini").netCalls = [] :=
  ⟨rfl, rfl, rfl, rfl⟩

/-- Claim C6 counterexample: with the OpenAI key equal to the sentinel
placeholder "YOUR_API_KEY_HERE", the multi-turn entry point does not
raise a configuration error: it performs the network call (one client
call is made) and returns the completion. -/
theorem C6_counterexample :
    (call_llm_with_history netOkT envPlaceholder
        [{ role := "user", content := "hi" }] "openai").result =
      Except.ok (some "T") ∧
    (call_llm_with_history netOkT envPlaceholder
        [{ role := "user", content := "hi" }] "openai").netCalls.length = 1 :=
  ⟨rfl, rfl⟩

/-- Claim C6 (amended): a missing (falsy) credential for the chosen
provider causes the configuration ValueError before any network call in
both entry points; the sentinel placeholder "YOUR_API_KEY_HERE" is
treated as absent only in the single-turn entry point, whose OpenAI
branch alone compares against it. -/
theorem C6_credential_amended (net : Net) (envA envB : Env) (prompt : String)
    (msgs : List Msg) (model : Option String) (t : Float) (mt : Option Int)
    (hA1 : pyTruthy envA.openai_api_key = false)
    (hA2 : pyTruthy envA.anthropic_api_key = false)
    (hB : envB.openai_api_key = some "YOUR_API_KEY_HERE")
    (hmsgs : msgs ≠ []) :
    ((call_llm net envA prompt "openai" model t mt).result =
        Except.error (Err.valueError "OPENAI_API_KEY not found in environment variables") ∧
      (call_llm net envA prompt "openai" model t mt).netCalls = []) ∧
    ((call_llm net envA prompt "anthropic" model t mt).result =
        Except.error (Err.valueError "ANTHROPIC_API_KEY not found in environment variables") ∧
      (call_llm net envA prompt "anthropic" model t mt).netCalls = []) ∧
    ((call_llm net envB prompt "openai" model t mt).result =
        Except.error (Err.valueError "OPENAI_API_KEY not found in environment variables") ∧
      (call_llm net envB prompt "openai" model t mt).netCalls = []) ∧
    ((call_llm_with_history net envA msgs "openai" model t mt).result =
        Except.error (Err.valueError "OPENAI_API_KEY not found in environment variables") ∧
      (call_llm_with_history net envA msgs "openai" model t mt).netCalls = []) ∧
    ((call_llm_with_history net envA msgs "anthropic" model t mt).result =
        Except.error (Err.valueError "ANTHROPIC_API_KEY not found in environment variables") ∧
      (call_llm_with_history net envA msgs "anthropic" model t mt).netCalls = []) := by
  refine ⟨?_, ?_, ?_, ?_, ?_⟩
  · rw [call_llm_openai_nokey net envA prompt model t mt (Or.inl hA1)]
    exact ⟨rfl, rfl⟩
  · rw [call_llm_anthropic_nokey net envA prompt model t mt hA2]
    exact ⟨rfl, rfl⟩
  · rw [call_llm_openai_nokey net envB prompt model t mt (Or.inr hB)]
    exact ⟨rfl, rfl⟩
  · rw [call_llm_with_history_openai_nokey net envA msgs model t mt hmsgs hA1]
    exact ⟨rfl, rfl⟩
  · rw [call_llm_with_history_anthropic_nokey net envA msgs model t mt hmsgs hA2]
    exact ⟨rfl, rfl⟩

/-- Witness for C6_credential_amended at the empty environment, the
placeholder environment, and a one-message history. -/
theorem C6_credential_amended_witness :
    pyTruthy envNone.openai_api_key = false ∧
    pyTruthy envNone.anthropic_api_key = false ∧
    envPlaceholder.openai_api_key = some "YOUR_API_KEY_HERE" ∧
    (((call_llm netOkT envNone "hi" "openai" none 0.7 none).result =
        Except.error (Err.valueError "OPENAI_API_KEY not found in environment variables") ∧
      (call_llm netOkT envNone "hi" "openai" none 0.7 none).netCalls = []) ∧
    ((call_llm netOkT envNone "hi" "anthropic" none 0.7 none).result =
        Except.error (Err.valueError "ANTHROPIC_API_KEY not found in environment variables") ∧
      (call_llm netOkT envNone "hi" "anthropic" none 0.7 none).netCalls = []) ∧
    ((call_llm netOkT envPlaceholder "hi" "openai" none 0.7 none).result =
        Except.error (Err.valueError "OPENAI_API_KEY not found in environment variables") ∧
      (call_llm netOkT envPlaceholder "hi" "openai" none 0.7 none).netCalls = []) ∧
    ((call_llm_with_history netOkT envNone [Msg.mk "user" "hi"] "openai" none 0.7 none).result =
        Except.error (Err.valueError "OPENAI_API_KEY not found in environment variables") ∧
      (call_llm_with_history netOkT envNone [Msg.mk "user" "hi"] "openai" none 0.7 none).netCalls = []) ∧
    ((call_llm_with_history netOkT envNone [Msg.mk "user" "hi"] "anthropic" none 0.7 none).result =
        Except.error (Err.valueError "ANTHROPIC_API_KEY not found in environment variables") ∧
      (call_llm_with_history netOkT envNone [Msg.mk "user" "hi"] "anthropic" none 0.7 none).netCalls = [])) :=
  ⟨rfl, rfl, rfl,
    C6_credential_amended netOkT envNone envPlaceholder "hi" [Msg.mk "user" "hi"]
      none 0.7 none rfl rfl rfl (by decide)⟩

/-- Claim C7: with max_output_tokens absent, the OpenAI request carries
no max_tokens field (none, provider default) while the Anthropic request
carries the fixed ceiling 4096, in both the single-turn and multi-turn
entry points. -/
theorem C7_max_tokens_defaults (net : Net) (env : Env) (prompt : String)
    (msgs : List Msg) (model : Option String) (t : Float)
    (h1 : pyTruthy env.openai_api_key = true)
    (h2 : env.openai_api_key ≠ some "YOUR_API_KEY_HERE")
    (h3 : pyTruthy env.anthropic_api_key = true)
    (hmsgs : msgs ≠ []) :
    sentMaxTokens (call_llm net env prompt "openai" model t none).netCalls = [none] ∧
    sentMaxTokens (call_llm net env prompt "anthropic" model t none).netCalls = [some 4096] ∧
    sentMaxTokens (call_llm_with_history net env msgs "openai" model t none).netCalls = [none] ∧
    sentMaxTokens (call_llm_with_history net env msgs "anthropic" model t none).netCalls = [some 4096] := by
  refine ⟨?_, ?_, ?_, ?_⟩
  · rw [call_llm_openai_spec net env prompt model t none h1 h2]
    cases net.openai (openaiSingleReq prompt model t none) <;> rfl
  · rw [call_llm_anthropic_spec net env prompt model t none h3]
    cases net.anthropic (anthropicSingleReq prompt model t none) <;> rfl
  · rw [call_llm_with_history_openai_spec net env msgs model t none hmsgs h1]
    cases net.openai (openaiHistReq msgs model t none) <;> rfl
  · rw [call_llm_with_history_anthropic_spec net env msgs model t none hmsgs h3]
    cases net.anthropic (anthropicHistReq msgs model t none) <;> rfl

/-- Witness for C7_max_tokens_defaults at a concrete run. -/
theorem C7_max_tokens_defaults_witness :
    pyTruthy envBoth.openai_api_key = true ∧
    pyTruthy envBoth.anthropic_api_key = true ∧
    (sentMaxTokens (call_llm netOkT envBoth "hi" "openai" none 0.7 none).netCalls = [none] ∧
     sentMaxTokens (call_llm netOkT envBoth "hi" "anthropic" none 0.7 none).netCalls = [some 4096] ∧
     sentMaxTokens (call_llm_with_history netOkT envBoth [Msg.mk "user" "hi"]
        "openai" none 0.7 none).netCalls = [none] ∧
     sentMaxTokens (call_llm_with_history netOkT envBoth [Msg.mk "user" "hi"]
        "anthropic" none 0.7 none).netCalls = [some 4096]) :=
  ⟨rfl, rfl,
    C7_max_tokens_defaults netOkT envBoth "hi" [Msg.mk "user" "hi"] none 0.7
      rfl (by decide) rfl (by decide)⟩

/-- Claim C8 counterexample: in the single-turn entry point an explicit
model field equal to the empty string is not used verbatim: the Python
`model or "gpt-4o"` treats it as falsy and the request carries the
default model instead. -/
theorem C8_counterexample :
    sentModels (call_llm netOkT envBoth "hi" "openai" (some "") 0.7 none).netCalls =
      ["gpt-4o"] ∧
    ¬ ("gpt-4o" : String) = "" :=
  ⟨rfl, by decide⟩

/-- Claim C8 (amended): with the model field absent both entry points use
the per-provider default identifier ("gpt-4o" for OpenAI,
"claude-3-opus-20240229" for Anthropic); an explicit model is used
verbatim in the single-turn entry point only when it is nonempty (an
empty string falls back to the default there), while the multi-turn
entry point uses any explicit model verbatim. -/
theorem C8_model_amended (net : Net) (env : Env) (prompt mstr s : String)
    (msgs : List Msg) (t : Float) (mt : Option Int)
    (h1 : pyTruthy env.openai_api_key = true)
    (h2 : env.openai_api_key ≠ some "YOUR_API_KEY_HERE")
    (h3 : pyTruthy env.anthropic_api_key = true)
    (hmsgs : msgs ≠ [])
    (hm : ¬ mstr = "") :
    sentModels (call_llm net env prompt "openai" none t mt).netCalls = ["gpt-4o"] ∧
    sentModels (call_llm net env prompt "anthropic" none t mt).netCalls =
      ["claude-3-opus-20240229"] ∧
    sentModels (call_llm_with_history net env msgs "openai" none t mt).netCalls =
      ["gpt-4o"] ∧
    sentModels (call_llm_with_history net env msgs "anthropic" none t mt).netCalls =
      ["claude-3-opus-20240229"] ∧
    sentModels (call_llm net env prompt "openai" (some mstr) t mt).netCalls = [mstr] ∧
    sentModels (call_llm net env prompt "anthropic" (some mstr) t mt).netCalls = [mstr] ∧
    sentModels (call_llm_with_history net env msgs "openai" (some s) t mt).netCalls = [s] ∧
    sentModels (call_llm_with_history net env msgs "anthropic" (some s) t mt).netCalls = [s] := by
  refine ⟨?_, ?_, ?_, ?_, ?_, ?_, ?_, ?_⟩
  · rw [call_llm_openai_spec net env prompt none t mt h1 h2]
    cases net.openai (openaiSingleReq prompt none t mt) <;> rfl
  · rw [call_llm_anthropic_spec net env prompt none t mt h3]
    cases net.anthropic (anthropicSingleReq prompt none t mt) <;> rfl
  · rw [call_llm_with_history_openai_spec net env msgs none t mt hmsgs h1]
    cases net.openai (openaiHistReq msgs none t mt) <;> rfl
  · rw [call_llm_with_history_anthropic_spec net env msgs none t mt hmsgs h3]
    cases net.anthropic (anthropicHistReq msgs none t mt) <;> rfl
  · rw [call_llm_openai_spec net env prompt (some mstr) t mt h1 h2]
    cases net.openai (openaiSingleReq prompt (some mstr) t mt) <;>
      simp [sentModels, openaiSingleReq, pyOrStr, hm]
  · rw [call_llm_anthropic_spec net env prompt (some mstr) t mt h3]
    cases net.anthropic (anthropicSingleReq prompt (some mstr) t mt) <;>
      simp [sentModels, anthropicSingleReq, pyOrStr, hm]
  · rw [call_llm_with_history_openai_spec net env msgs (some s) t mt hmsgs h1]
    cases net.openai (openaiHistReq msgs (some s) t mt) <;> rfl
  · rw [call_llm_with_history_anthropic_spec net env msgs (some s) t mt hmsgs h3]
    cases net.anthropic (anthropicHistReq msgs (some s) t mt) <;> rfl

/-- Witness for C8_model_amended at a concrete run with explicit model
"m1" in the single-turn calls and "" in the multi-turn calls. -/
theorem C8_model_amended_witness :
    ¬ ("m1" : String) = "" ∧
    (sentModels (call_llm netOkT envBoth "hi" "openai" none 0.7 none).netCalls = ["gpt-4o"] ∧
     sentModels (call_llm netOkT envBoth "hi" "anthropic" none 0.7 none).netCalls =
       ["claude-3-opus-20240229"] ∧
     sentModels (call_llm_with_history netOkT envBoth [Msg.mk "user" "hi"]
        "openai" none 0.7 none).netCalls = ["gpt-4o"] ∧
     sentModels (call_llm_with_history netOkT envBoth [Msg.mk "user" "hi"]
        "anthropic" none 0.7 none).netCalls = ["claude-3-opus-20240229"] ∧
     sentModels (call_llm netOkT envBoth "hi" "openai" (some "m1") 0.7 none).netCalls = ["m1"] ∧
     sentModels (call_llm netOkT envBoth "hi" "anthropic" (some "m1") 0.7 none).netCalls = ["m1"] ∧
     sentModels (call_llm_with_history netOkT envBoth [Msg.mk "user" "hi"]
        "openai" (some "") 0.7 none).netCalls = [""] ∧
     sentModels (call_llm_with_history netOkT envBoth [Msg.mk "user" "hi"]
        "anthropic" (some "") 0.7 none).netCalls = [""]) :=
  ⟨by decide,
    C8_model_amended netOkT envBoth "hi" "m1" "" [Msg.mk "user" "hi"] 0.7 none
      rfl (by decide) rfl (by decide) (by decide)⟩

/-- Claim C10: in the single-turn entry point with provider "anthropic",
an explicit max_tokens of 0 is not used verbatim: `max_tokens or 4096`
treats 0 as falsy, so the request carries 4096. -/
theorem C10_zero_max_tokens (net : Net) (env : Env) (prompt : String)
    (model : Option String) (t : Float)
    (h3 : pyTruthy env.anthropic_api_key = true) :
    sentMaxTokens (call_llm net env prompt "anthropic" model t (some 0)).netCalls =
      [some 4096] := by
  rw [call_llm_anthropic_spec net env prompt model t (some 0) h3]
  cases net.anthropic (anthropicSingleReq prompt model t (some 0)) <;> rfl

/-- Witness for C10_zero_max_tokens at a concrete run. -/
theorem C10_zero_max_tokens_witness :
    pyTruthy envBoth.anthropic_api_key = true ∧
    sentMaxTokens (call_llm netOkT envBoth "hi" "anthropic" none 0.7
      (some 0)).netCalls = [some 4096] :=
  ⟨rfl, C10_zero_max_tokens netOkT envBoth "hi" none 0.7 rfl⟩

/-- Claim C3 counterexample: when the OpenAI client raises the fault
"boom", the propagated exception is exactly that original fault - its
message is "boom" and does not contain the provider name "openai", so
the propagated error itself does not carry the provider name (only the
emitted error log does). -/
theorem C3_counterexample :
    (call_llm netBoom envBoth "hi" "openai").result =
      Except.error (Err.fault "boom") ∧
    strContainsSub (Err.message (Err.fault "boom")) "openai" = false :=
  ⟨rfl, by decide⟩

/-- Claim C3 (amended): on a client fault both adapters re-raise the
original fault unchanged (the propagated error is exactly the fault with
its original message, with no provider name added to it), make exactly
one client call with no retry, return no successful result, and emit an
error log line that carries the provider name together with the fault
message. -/
theorem C3_fault_amended (net : Net) (env : Env) (prompt m : String)
    (msgs : List Msg) (model : Option String) (t : Float) (mt : Option Int)
    (h1 : pyTruthy env.openai_api_key = true)
    (h2 : env.openai_api_key ≠ some "YOUR_API_KEY_HERE")
    (h3 : pyTruthy env.anthropic_api_key = true)
    (hmsgs : msgs ≠ [])
    (hfo : ∀ r, net.openai r = Except.error m)
    (hfa : ∀ r, net.anthropic r = Except.error m) :
    ((call_llm net env prompt "openai" model t mt).result =
        Except.error (Err.fault m) ∧
      (call_llm net env prompt "openai" model t mt).netCalls.length = 1 ∧
      ("Error calling openai LLM: " ++ m) ∈
        (call_llm net env prompt "openai" model t mt).logs) ∧
    ((call_llm net env prompt "anthropic" model t mt).result =
        Except.error (Err.fault m) ∧
      (call_llm net env prompt "anthropic" model t mt).netCalls.length = 1 ∧
      ("Error calling anthropic LLM: " ++ m) ∈
        (call_llm net env prompt "anthropic" model t mt).logs) ∧
    ((call_llm_with_history net env msgs "openai" model t mt).result =
        Except.error (Err.fault m) ∧
      (call_llm_with_history net env msgs "openai" model t mt).netCalls.length = 1 ∧
      ("Error calling openai with history: " ++ m) ∈
        (call_llm_with_history net env msgs "openai" model t mt).logs) ∧
    ((call_llm_with_history net env msgs "anthropic" model t mt).result =
        Except.error (Err.fault m) ∧
      (call_llm_with_history net env msgs "anthropic" model t mt).netCalls.length = 1 ∧
      ("Error calling anthropic with history: " ++ m) ∈
        (call_llm_with_history net env msgs "anthropic" model t mt).logs) := by
  refine ⟨?_, ?_, ?_, ?_⟩
  · rw [call_llm_openai_spec net env prompt model t mt h1 h2,
      hfo (openaiSingleReq prompt model t mt)]
    exact ⟨rfl, rfl, List.mem_cons_of_mem _ (List.mem_cons_self _ _)⟩
  · rw [call_llm_anthropic_spec net env prompt model t mt h3,
      hfa (anthropicSingleReq prompt model t mt)]
    exact ⟨rfl, rfl, List.mem_cons_of_mem _ (List.mem_cons_self _ _)⟩
  · rw [call_llm_with_history_openai_spec net env msgs model t mt hmsgs h1,
      hfo (openaiHistReq msgs model t mt)]
    exact ⟨rfl, rfl, List.mem_cons_of_mem _ (List.mem_cons_self _ _)⟩
  · rw [call_llm_with_history_anthropic_spec net env msgs model t mt hmsgs h3,
      hfa (anthropicHistReq msgs model t mt)]
    exact ⟨rfl, rfl, List.mem_cons_of_mem _ (List.mem_cons_self _ _)⟩

/-- Witness for C3_fault_amended with the always-failing oracle. -/
theorem C3_fault_amended_witness :
    (((call_llm netBoom envBoth "hi" "openai" none 0.7 none).result =
        Except.error (Err.fault "boom") ∧
      (call_llm netBoom envBoth "hi" "openai" none 0.7 none).netCalls.length = 1 ∧
      ("Error calling openai LLM: " ++ "boom") ∈
        (call_llm netBoom envBoth "hi" "openai" none 0.7 none).logs) ∧
    ((call_llm netBoom envBoth "hi" "anthropic" none 0.7 none).result =
        Except.error (Err.fault "boom") ∧
      (call_llm netBoom envBoth "hi" "anthropic" none 0.7 none).netCalls.length = 1 ∧
      ("Error calling anthropic LLM: " ++ "boom") ∈
        (call_llm netBoom envBoth "hi" "anthropic" none 0.7 none).logs) ∧
    ((call_llm_with_history netBoom envBoth [Msg.mk "user" "hi"]
        "openai" none 0.7 none).result = Except.error (Err.fault "boom") ∧
      (call_llm_with_history netBoom envBoth [Msg.mk "user" "hi"]
        "openai" none 0.7 none).netCalls.length = 1 ∧
      ("Error calling openai with history: " ++ "boom") ∈
        (call_llm_with_history netBoom envBoth [Msg.mk "user" "hi"]
          "openai" none 0.7 none).logs) ∧
    ((call_llm_with_history netBoom envBoth [Msg.mk "user" "hi"]
        "anthropic" none 0.7 none).result = Except.error (Err.fault "boom") ∧
      (call_llm_with_history netBoom envBoth [Msg.mk "user" "hi"]
        "anthropic" none 0.7 none).netCalls.length = 1 ∧
      ("Error calling anthropic with history: " ++ "boom") ∈
        (call_llm_with_history netBoom envBoth [Msg.mk "user" "hi"]
          "anthropic" none 0.7 none).logs)) :=
  C3_fault_amended netBoom envBoth "hi" "boom" [Msg.mk "user" "hi"] none 0.7 none
    rfl (by decide) rfl (by decide) (fun _ => rfl) (fun _ => rfl)
